import Mathlib

/-!
Verification of the irrigation-worker service (`src/main.py`) against its
natural-language specification.

Shallow embedding conventions:
* Python `float` sensor values are modelled as `ℚ` (the comparisons and
  products the program performs are exact on the values the claims touch;
  NaN/infinity are outside the modelled domain).
* The Firebase `sensorData` subtree is modelled by `SensorSnapshot`, a record
  with one field per key this program ever reads or writes there
  (`humidity`, `temperature`, `soilMoisture`, `prediction_class`,
  `last_prediction_time`) plus the `raw` child subtree; `none` models an
  absent key, `some .null` a stored JSON `null`.  Python dict equality on
  this key space coincides with structure equality.
* External effects that can raise (the store fetch, `scaler.transform` /
  `model.predict`, the two `set` writes) are driven by explicit environment
  values saying which call raises this time; a raised exception is modelled
  by the `Option`/result branch the corresponding `except` clause produces.
* The model artifact (`tamil_nadu_irrigation_model.pkl`) is opaque: it is a
  structure of functions (`Artifacts`), quantified over in the theorems.
-/

/-- A JSON value stored at a leaf of the Firebase tree: `null`, a number, or
a string.  This covers every leaf the program reads or writes. -/
inductive FireValue where
  | null : FireValue
  | num : ℚ → FireValue
  | str : String → FireValue
deriving DecidableEq

/-- The `sensorData/raw` subtree: the three sensor keys, each possibly
absent (`none`) or null (`some .null`). -/
structure RawSnapshot where
  humidity : Option FireValue
  temperature : Option FireValue
  soilMoisture : Option FireValue
deriving DecidableEq

/-- The `sensorData` subtree of the remote store: the keys the program reads
or writes at the top level, plus the `raw` child. -/
structure SensorSnapshot where
  humidity : Option FireValue
  temperature : Option FireValue
  soilMoisture : Option FireValue
  prediction_class : Option FireValue
  last_prediction_time : Option FireValue
  raw : Option RawSnapshot
deriving DecidableEq

def emptyRaw : RawSnapshot := ⟨none, none, none⟩

def emptySnapshot : SensorSnapshot := ⟨none, none, none, none, none, none⟩

/-- `class SensorData(BaseModel)` (main.py lines 36-39): the validated
reading, three floats. -/
structure SensorData where
  humidity : ℚ
  temperature : ℚ
  soilMoisture : ℚ
deriving DecidableEq

/-- The wall-clock fields `predict_irrigation` reads from `datetime.now()`
(lines 50-52): `now.hour`, `now.timetuple().tm_yday`, `now.month`. -/
structure Clock where
  hour : ℕ
  day_of_year : ℕ
  month : ℕ
deriving DecidableEq

/-- The artifact bundle loaded at startup (lines 26-30): classifier, scaler
and the three label encoders, opaque to this program.  An encoder returns
`none` on a label outside its trained vocabulary (sklearn raises there). -/
structure Artifacts where
  le_district : String → Option ℚ
  le_zone : String → Option ℚ
  le_season : String → Option ℚ
  scale : List ℚ → List ℚ
  predict : List ℚ → Int

/-- Hardcoded context constant (line 53). -/
def DISTRICT : String := "Coimbatore"

/-- Hardcoded context constant (line 54). -/
def ZONE : String := "Western Zone"

/-- Hardcoded context constant (line 55). -/
def SEASON : String := "southwest_monsoon"

/-- The hardcoded `rainfall_mm_prediction_next_1h` placeholder, `0.5`
(line 49). -/
def rainfall_mm_prediction_next_1h : ℚ := 1 / 2

/-- Line 62: `int(temperature_celsius > 35 and humidity_percent < 50)`. -/
def heat_stress (temperature humidity : ℚ) : ℚ :=
  if temperature > 35 ∧ humidity < 50 then 1 else 0

/-- Line 63: `int(soil_moisture_percent < 30 and
rainfall_mm_prediction_next_1h < 1)`. -/
def drought_stress (soil_moisture rainfall : ℚ) : ℚ :=
  if soil_moisture < 30 ∧ rainfall < 1 then 1 else 0

/-- Lines 44-82 of `predict_irrigation`: the feature-construction step.
Returns the 14-entry feature vector, or `none` when a label encoder raises
on one of the hardcoded categories (`.transform` on an unknown label). -/
def feature_vector (A : Artifacts) (data : SensorData) (now : Clock) :
    Option (List ℚ) :=
  match A.le_district DISTRICT, A.le_zone ZONE, A.le_season SEASON with
  | some district_enc, some zone_enc, some season_enc =>
      some [data.soilMoisture,
            data.temperature,
            data.humidity,
            rainfall_mm_prediction_next_1h,
            (now.hour : ℚ),
            (now.day_of_year : ℚ),
            (now.month : ℚ),
            district_enc,
            zone_enc,
            season_enc,
            heat_stress data.temperature data.humidity,
            drought_stress data.soilMoisture rainfall_mm_prediction_next_1h,
            data.soilMoisture * data.temperature,
            data.humidity * rainfall_mm_prediction_next_1h]
  | _, _, _ => none

/-- Line 89: `db.reference('sensorData/prediction_class').set(irrigation_class)`
— a full overwrite of that key. -/
def set_prediction_class (irrigation_class : Int) (store : SensorSnapshot) :
    SensorSnapshot :=
  { store with prediction_class := some (.num (irrigation_class : ℚ)) }

/-- Line 90: `db.reference('sensorData/last_prediction_time').set(timestamp)`
— a full overwrite of that key. -/
def set_last_prediction_time (timestamp : String) (store : SensorSnapshot) :
    SensorSnapshot :=
  { store with last_prediction_time := some (.str timestamp) }

/-- The Result Publisher's success path, lines 89-90: the two writes in
order. -/
def publish_result (irrigation_class : Int) (timestamp : String)
    (store : SensorSnapshot) : SensorSnapshot :=
  set_last_prediction_time timestamp (set_prediction_class irrigation_class store)

/-- What `predict_irrigation` returns: the success dict
`{"irrigation_class": c, "timestamp": t}` or the error dict
`{"error": msg}` produced by its blanket `except` (lines 94-97). -/
inductive PredictResult where
  | ok : Int → String → PredictResult
  | error : String → PredictResult
deriving DecidableEq

/-- Whether one external store write succeeds or raises. -/
inductive WriteOutcome where
  | ok : WriteOutcome
  | raise : WriteOutcome
deriving DecidableEq

/-- The external world during one `predict_irrigation` call: whether the
numeric step (`scaler.transform` / `model.predict`, lines 84-85) raises,
whether each of the two store writes (lines 89-90) raises, and the timestamp
`datetime.now().isoformat()` computed at line 88. -/
structure PredictEnv where
  inferRaises : Bool
  write1 : WriteOutcome
  write2 : WriteOutcome
  timestamp : String
deriving DecidableEq

/-- `predict_irrigation` (lines 42-97).  Every exception inside is caught by
the `except` at line 95 and converted to an error result; the function never
raises.  Returns the store after the call together with the result dict. -/
def predict_irrigation (A : Artifacts) (env : PredictEnv) (data : SensorData)
    (now : Clock) (store : SensorSnapshot) : SensorSnapshot × PredictResult :=
  match feature_vector A data now with
  | none => (store, .error "unknown category")
  | some fv =>
      if env.inferRaises then
        (store, .error "inference failed")
      else
        let irrigation_class : Int := A.predict (A.scale fv)
        match env.write1 with
        | .raise => (store, .error "store write failed")
        | .ok =>
            let store1 := set_prediction_class irrigation_class store
            match env.write2 with
            | .raise => (store1, .error "store write failed")
            | .ok => (set_last_prediction_time env.timestamp store1,
                      .ok irrigation_class env.timestamp)

/-- Python `float(v)` on a fetched leaf value: a number coerces to itself,
`None` raises `TypeError`, a (non-numeric) string raises `ValueError`; a
raise is modelled by `none`.  (A numeric string would coerce in Python; no
stored string in this system is numeric — timestamps are ISO-8601.) -/
def coerceFloat : FireValue → Option ℚ
  | .num q => some q
  | .null => none
  | .str _ => none

/-- The `SensorData(humidity=float(d.get("humidity", 0.0)), ...)`
construction used by all three fetching trigger paths (lines 137-141,
185-189, 244-248): an absent key falls back to the default `0.0`, then
`float` coerces; `none` models a raised `ValueError`/`TypeError`. -/
def coerceSensorData (h t sm : Option FireValue) : Option SensorData := do
  let humidity ← coerceFloat (h.getD (.num 0))
  let temperature ← coerceFloat (t.getD (.num 0))
  let soilMoisture ← coerceFloat (sm.getD (.num 0))
  pure ⟨humidity, temperature, soilMoisture⟩

/-- The in-memory state of the poll loop `monitor_firebase_sensor_data`
(lines 106-107): `last_values`, `consecutive_errors`, and whether the loop
has executed its `break` (lines 165-167). -/
structure MonitorState where
  last_values : Option SensorSnapshot
  consecutive_errors : ℕ
  halted : Bool
deriving DecidableEq

/-- The initial monitor state (lines 106-107): `last_values = None`,
`consecutive_errors = 0`, loop running. -/
def initState : MonitorState := ⟨none, 0, false⟩

/-- `max_errors = 5` (line 108). -/
def max_errors : ℕ := 5

/-- The external world during one poll cycle: whether `ref.get()` at
line 115 raises, and the `predict_irrigation` environment for the cycle's
(at most one) pipeline run. -/
structure CycleEnv where
  fetchRaises : Bool
  predictEnv : PredictEnv
deriving DecidableEq

/-- `ref.get()` on `sensorData` (line 115): Firebase returns `None` for an
empty location, otherwise the stored subtree. -/
def monitorFetch (store : SensorSnapshot) : Option SensorSnapshot :=
  if store = emptySnapshot then none else some store

/-- Python truthiness of a fetched dict: an empty dict is falsy. -/
def snapTruthy (s : SensorSnapshot) : Bool := decide (s ≠ emptySnapshot)

/-- Lines 122-126: `last_values is None or current != last_values or
not last_values`.  The comparison is Python dict equality over the whole
fetched `sensorData` subtree. -/
def data_changed (last_values : Option SensorSnapshot)
    (current : SensorSnapshot) : Bool :=
  match last_values with
  | none => true
  | some lv => decide (current ≠ lv) || !snapTruthy lv

/-- Line 135: `all(field in current for field in required_fields)` with
`required_fields = ['humidity', 'temperature', 'soilMoisture']`. -/
def required_fields_present (current : SensorSnapshot) : Bool :=
  current.humidity.isSome && current.temperature.isSome &&
    current.soilMoisture.isSome

/-- What one poll cycle produced: the store afterwards, the monitor state
afterwards, and the result of the pipeline run when one was invoked
(`none` when control never reached the `predict_irrigation` call at
line 142). -/
structure CycleResult where
  store : SensorSnapshot
  state : MonitorState
  result : Option PredictResult
deriving DecidableEq

/-- One iteration of the `while True` body of `monitor_firebase_sensor_data`
(lines 112-169).  A halted loop performs no further cycles.  The outer
`except` (lines 161-167) increments `consecutive_errors` and breaks at
`max_errors`; the inner `except (ValueError, TypeError)` (lines 149-151)
only logs; after a `predict_irrigation` call — whatever its result —
lines 146-147 set `last_values = current.copy()` and reset the counter. -/
def monitorCycle (A : Artifacts) (env : CycleEnv) (now : Clock)
    (store : SensorSnapshot) (s : MonitorState) : CycleResult :=
  if s.halted then ⟨store, s, none⟩
  else if env.fetchRaises then
    let errs := s.consecutive_errors + 1
    ⟨store, { s with consecutive_errors := errs,
                     halted := decide (errs ≥ max_errors) }, none⟩
  else
    match monitorFetch store with
    | none => ⟨store, s, none⟩
    | some current =>
        if data_changed s.last_values current then
          if required_fields_present current then
            match coerceSensorData current.humidity current.temperature
                current.soilMoisture with
            | none => ⟨store, s, none⟩
            | some data =>
                let r := predict_irrigation A env.predictEnv data now store
                ⟨r.1, { s with last_values := some current,
                               consecutive_errors := 0 }, some r.2⟩
          else ⟨store, s, none⟩
        else ⟨store, s, none⟩

/-- The poll loop run over a finite schedule of cycles, threading the store
and monitor state. -/
def runMonitor (A : Artifacts) (steps : List (CycleEnv × Clock))
    (store : SensorSnapshot) (s : MonitorState) :
    SensorSnapshot × MonitorState :=
  match steps with
  | [] => (store, s)
  | (env, now) :: rest =>
      let r := monitorCycle A env now store s
      runMonitor A rest r.store r.state

/-- Python truthiness of `current_data` fetched from `sensorData/raw`
(line 243): `None` and the empty dict are falsy. -/
def rawTruthy : Option RawSnapshot → Bool
  | none => false
  | some r => decide (r ≠ emptyRaw)

/-- What the `/trigger-prediction` handler returns: the success payload
(line 250) or one of its error payloads (lines 252, 255). -/
inductive TriggerResult where
  | success : PredictResult → RawSnapshot → TriggerResult
  | error : String → TriggerResult
deriving DecidableEq

/-- `trigger_prediction` (lines 237-255): fetches `sensorData/raw`, builds a
`SensorData` with `current_data.get(field, 0.0)` defaults — with no presence
check — and runs the pipeline; any raise is caught at line 254. -/
def trigger_prediction (A : Artifacts) (fetchRaises : Bool)
    (env : PredictEnv) (now : Clock) (store : SensorSnapshot) :
    SensorSnapshot × TriggerResult :=
  if fetchRaises then (store, .error "store fetch failed")
  else if rawTruthy store.raw then
    let raw := store.raw.getD emptyRaw
    match coerceSensorData raw.humidity raw.temperature raw.soilMoisture with
    | none => (store, .error "coercion failed")
    | some data =>
        let r := predict_irrigation A env data now store
        (r.1, .success r.2 raw)
  else (store, .error "No sensor data found")

/-- Firebase listener event types the callback filters for (line 182). -/
inductive EventType where
  | put : EventType
  | patch : EventType
  | other : EventType
deriving DecidableEq

/-- A `sensorData/raw` listener event: its type and its data payload. -/
structure FireEvent where
  event_type : EventType
  data : Option RawSnapshot
deriving DecidableEq

/-- `sensor_data_listener` (lines 177-196), the push-triggered path: filters
for truthy data and `put`/`patch` events, checks the three required fields
are present, then runs the pipeline; every raise is caught at line 195 and
only logged.  Returns the store afterwards and the pipeline result when one
ran. -/
def sensor_data_listener (A : Artifacts) (env : PredictEnv) (now : Clock)
    (event : FireEvent) (store : SensorSnapshot) :
    SensorSnapshot × Option PredictResult :=
  if rawTruthy event.data &&
      (event.event_type == .put || event.event_type == .patch) then
    let d := event.data.getD emptyRaw
    if d.humidity.isSome && d.temperature.isSome && d.soilMoisture.isSome then
      match coerceSensorData d.humidity d.temperature d.soilMoisture with
      | none => (store, none)
      | some data =>
          let r := predict_irrigation A env data now store
          (r.1, some r.2)
    else (store, none)
  else (store, none)

/-! Concrete fixtures used by the counterexamples and witnesses. -/

/-- A concrete artifact bundle: encoders that know every label, the identity
scaler, and a classifier that always answers class 1. -/
def testArtifacts : Artifacts where
  le_district := fun _ => some 3
  le_zone := fun _ => some 1
  le_season := fun _ => some 2
  scale := fun v => v
  predict := fun _ => 1

/-- A pipeline environment in which every external call succeeds. -/
def okEnv : PredictEnv := ⟨false, .ok, .ok, "2026-10-12T00:00:00"⟩

/-- A pipeline environment in which the numeric inference step raises. -/
def inferFailEnv : PredictEnv := ⟨true, .ok, .ok, "2026-10-12T00:00:01"⟩

/-- A pipeline environment in which the first store write raises. -/
def write1FailEnv : PredictEnv := ⟨false, .raise, .ok, "2026-10-12T00:00:02"⟩

/-- A pipeline environment in which the first store write succeeds and the
second raises. -/
def write2FailEnv : PredictEnv := ⟨false, .ok, .raise, "2026-10-12T00:00:03"⟩

/-- A fixed clock instant. -/
def clk : Clock := ⟨10, 200, 7⟩

/-- A store snapshot holding a valid reading plus previously published
prediction metadata. -/
def snapA : SensorSnapshot :=
  { humidity := some (.num 40), temperature := some (.num 38),
    soilMoisture := some (.num 20), prediction_class := some (.num 1),
    last_prediction_time := some (.str "2026-10-11T23:00:00"), raw := none }

/-- `snapA` after the Result Publisher's own write of a fresh timestamp:
the three sensor fields are unchanged. -/
def snapB : SensorSnapshot :=
  { snapA with last_prediction_time := some (.str "2026-10-12T00:00:00") }

/-- `snapA` with `humidity` present but null. -/
def snapNullHum : SensorSnapshot := { snapA with humidity := some .null }

/-- A `sensorData/raw` payload with `soilMoisture` missing entirely. -/
def rawMissingSM : RawSnapshot := ⟨some (.num 40), some (.num 38), none⟩

/-- A store whose `raw` subtree misses `soilMoisture`. -/
def storeRawMissing : SensorSnapshot := { emptySnapshot with raw := some rawMissingSM }

/-- The validated concrete reading used by several witnesses (the spec's
end-to-end example: humidity 40, temperature 38, soil moisture 20). -/
def dataA : SensorData := ⟨40, 38, 20⟩

/-- The feature vector the test artifacts produce for `dataA` at `clk`. -/
def fvA : List ℚ :=
  [20, 38, 40, rainfall_mm_prediction_next_1h,
   ((10 : ℕ) : ℚ), ((200 : ℕ) : ℚ), ((7 : ℕ) : ℚ), 3, 1, 2,
   heat_stress 38 40, drought_stress 20 rainfall_mm_prediction_next_1h,
   20 * 38, 40 * rainfall_mm_prediction_next_1h]

/-- A required sensor field that is absent (`none`) or stored as JSON
null. -/
def missing_or_null (v : Option FireValue) : Bool :=
  v.isNone || v == some .null

/-- The fetched `sensorData` reading has a missing or null required sensor
field. -/
def snapshot_invalid (c : SensorSnapshot) : Bool :=
  missing_or_null c.humidity || missing_or_null c.temperature ||
    missing_or_null c.soilMoisture

/-- The fetched `sensorData/raw` reading has a missing or null required
sensor field. -/
def raw_invalid (r : RawSnapshot) : Bool :=
  missing_or_null r.humidity || missing_or_null r.temperature ||
    missing_or_null r.soilMoisture

/-- The fetched `sensorData/raw` reading has a null required sensor
field. -/
def raw_has_null (r : RawSnapshot) : Bool :=
  r.humidity == some .null || r.temperature == some .null ||
    r.soilMoisture == some .null

/-- A poll cycle whose store fetch raises. -/
def errStep : CycleEnv × Clock := (⟨true, okEnv⟩, clk)

/-- A poll cycle whose fetch and pipeline run both succeed. -/
def okStep : CycleEnv × Clock := (⟨false, okEnv⟩, clk)

/-- Four failing cycles, one successful run, four more failing cycles. -/
def trace414 : List (CycleEnv × Clock) :=
  [errStep, errStep, errStep, errStep, okStep, errStep, errStep, errStep,
   errStep]

/-- Five consecutive failing cycles. -/
def trace5 : List (CycleEnv × Clock) :=
  [errStep, errStep, errStep, errStep, errStep]

/-! Theorems for the claims. -/

/-- C7: for every temperature and humidity, `heat_stress` is 1 iff
temperature > 35 and humidity < 50, and otherwise 0; at the boundaries,
temperature = 35 or humidity = 50 yields 0. -/
theorem heat_stress_characterization :
    (∀ t h : ℚ, heat_stress t h = 1 ↔ (t > 35 ∧ h < 50)) ∧
    (∀ t h : ℚ, heat_stress t h = 0 ∨ heat_stress t h = 1) ∧
    (∀ h : ℚ, heat_stress 35 h = 0) ∧
    (∀ t : ℚ, heat_stress t 50 = 0) := by
  refine ⟨fun t h => ?_, fun t h => ?_, fun h => ?_, fun t => ?_⟩
  · by_cases hc : t > 35 ∧ h < 50 <;> simp [heat_stress, hc]
  · by_cases hc : t > 35 ∧ h < 50 <;> simp [heat_stress, hc]
  · simp [heat_stress, lt_irrefl]
  · simp [heat_stress, lt_irrefl]

/-- C8: for every soil moisture and rainfall, `drought_stress` is 1 iff
soil_moisture < 30 and rainfall < 1; with rainfall fixed at the hardcoded
0.5, it is 1 exactly when soil_moisture < 30. -/
theorem drought_stress_characterization :
    (∀ sm r : ℚ, drought_stress sm r = 1 ↔ (sm < 30 ∧ r < 1)) ∧
    rainfall_mm_prediction_next_1h = 1 / 2 ∧
    (∀ sm : ℚ, drought_stress sm rainfall_mm_prediction_next_1h = 1 ↔ sm < 30) := by
  refine ⟨fun sm r => ?_, rfl, fun sm => ?_⟩
  · by_cases hc : sm < 30 ∧ r < 1 <;> simp [drought_stress, hc]
  · by_cases hc : sm < 30
    · simp [drought_stress, rainfall_mm_prediction_next_1h, hc]
      norm_num
    · simp [drought_stress, rainfall_mm_prediction_next_1h, hc]

/-- C9: the Result Publisher is idempotent — publishing the same
irrigation class and timestamp twice leaves the store exactly as publishing
it once. -/
theorem publish_result_idempotent :
    ∀ (c : Int) (t : String) (store : SensorSnapshot),
      publish_result c t (publish_result c t store) = publish_result c t store := by
  intro c t store
  rfl

/-- C6: for every reading and clock instant, whenever the bundle's encoders
know the three configured categories, the Feature Constructor produces
`some v` with `v` of length exactly 14 and, position by position, the
declared column order, with `soil_temp_interaction` the plain product
soil_moisture * temperature and `humidity_rain_interaction` the plain
product humidity * rainfall. -/
theorem feature_vector_shape (A : Artifacts) (data : SensorData) (now : Clock)
    (d z sz : ℚ) (hd : A.le_district DISTRICT = some d)
    (hz : A.le_zone ZONE = some z) (hs : A.le_season SEASON = some sz) :
    ∃ v : List ℚ, feature_vector A data now = some v ∧ v.length = 14 ∧
      v[0]? = some data.soilMoisture ∧
      v[1]? = some data.temperature ∧
      v[2]? = some data.humidity ∧
      v[3]? = some rainfall_mm_prediction_next_1h ∧
      v[4]? = some (now.hour : ℚ) ∧
      v[5]? = some (now.day_of_year : ℚ) ∧
      v[6]? = some (now.month : ℚ) ∧
      v[7]? = some d ∧
      v[8]? = some z ∧
      v[9]? = some sz ∧
      v[10]? = some (heat_stress data.temperature data.humidity) ∧
      v[11]? = some (drought_stress data.soilMoisture rainfall_mm_prediction_next_1h) ∧
      v[12]? = some (data.soilMoisture * data.temperature) ∧
      v[13]? = some (data.humidity * rainfall_mm_prediction_next_1h) := by
  unfold feature_vector
  rw [hd, hz, hs]
  exact ⟨_, rfl, rfl, rfl, rfl, rfl, rfl, rfl, rfl, rfl, rfl, rfl, rfl, rfl,
    rfl, rfl, rfl⟩

/-- Witness for C6: the feature vector at the concrete reading
(humidity 40, temperature 38, soil moisture 20) under the concrete test
artifacts and the fixed clock. -/
theorem feature_vector_shape_witness :
    ∃ v : List ℚ,
      feature_vector testArtifacts ⟨40, 38, 20⟩ ⟨10, 200, 7⟩ = some v ∧
      v.length = 14 ∧
      v[0]? = some 20 ∧
      v[1]? = some 38 ∧
      v[2]? = some 40 ∧
      v[3]? = some rainfall_mm_prediction_next_1h ∧
      v[4]? = some ((10 : ℕ) : ℚ) ∧
      v[5]? = some ((200 : ℕ) : ℚ) ∧
      v[6]? = some ((7 : ℕ) : ℚ) ∧
      v[7]? = some 3 ∧
      v[8]? = some 1 ∧
      v[9]? = some 2 ∧
      v[10]? = some (heat_stress 38 40) ∧
      v[11]? = some (drought_stress 20 rainfall_mm_prediction_next_1h) ∧
      v[12]? = some (20 * 38) ∧
      v[13]? = some (40 * rainfall_mm_prediction_next_1h) :=
  feature_vector_shape testArtifacts ⟨40, 38, 20⟩ ⟨10, 200, 7⟩ 3 1 2 rfl rfl rfl

/-- C1 (refuting the claim at a concrete input): when inference raises, the
pipeline run fails — `predict_irrigation` returns the error payload — yet
the poll cycle still sets `last_values` to the fetched reading and so the
failed reading is not retried. -/
theorem failed_run_still_updates_last_values :
    (monitorCycle testArtifacts ⟨false, inferFailEnv⟩ clk snapA initState).result
        = some (.error "inference failed") ∧
    (monitorCycle testArtifacts ⟨false, inferFailEnv⟩ clk snapA initState).state.last_values
        = some snapA ∧
    (monitorCycle testArtifacts ⟨false, write2FailEnv⟩ clk snapA initState).result
        = some (.error "store write failed") ∧
    (monitorCycle testArtifacts ⟨false, write2FailEnv⟩ clk snapA initState).state.last_values
        = some snapA := by
  refine ⟨rfl, rfl, rfl, rfl⟩

/-- C2 (refuting the claim at a concrete input): the poll loop's change
detection compares the entire fetched `sensorData` dict, so after the
Result Publisher's own write of a fresh `last_prediction_time` — the three
sensor fields unchanged — `data_changed` is true and the cycle runs the
pipeline again. -/
theorem publisher_write_retriggers_pipeline :
    snapB.humidity = snapA.humidity ∧
    snapB.temperature = snapA.temperature ∧
    snapB.soilMoisture = snapA.soilMoisture ∧
    data_changed (some snapA) snapB = true ∧
    (monitorCycle testArtifacts ⟨false, okEnv⟩ clk snapB
        ⟨some snapA, 0, false⟩).result = some (.ok 1 okEnv.timestamp) := by
  refine ⟨rfl, rfl, rfl, by decide, rfl⟩

/-- C4 (refuting the claim at concrete inputs): a store-write failure
inside `predict_irrigation` is swallowed there, and the poll cycle resets
`consecutive_errors` to 0 instead of incrementing it; a validation failure
(null humidity) leaves the counter unchanged instead of incrementing it;
only a raising fetch increments it. -/
theorem pipeline_error_not_counted :
    (monitorCycle testArtifacts ⟨false, write1FailEnv⟩ clk snapA
        ⟨none, 3, false⟩).result = some (.error "store write failed") ∧
    (monitorCycle testArtifacts ⟨false, write1FailEnv⟩ clk snapA
        ⟨none, 3, false⟩).state.consecutive_errors = 0 ∧
    (monitorCycle testArtifacts ⟨false, okEnv⟩ clk snapNullHum
        ⟨none, 3, false⟩).result = none ∧
    (monitorCycle testArtifacts ⟨false, okEnv⟩ clk snapNullHum
        ⟨none, 3, false⟩).state.consecutive_errors = 3 ∧
    (monitorCycle testArtifacts ⟨true, okEnv⟩ clk snapA
        ⟨none, 3, false⟩).state.consecutive_errors = 4 := by
  refine ⟨rfl, rfl, rfl, rfl, rfl⟩

/-- C3 counterexample: at the manual trigger endpoint, a reading whose
`soilMoisture` key is missing is not rejected — the field silently defaults
to 0.0, the pipeline runs, and both store writes are performed. -/
theorem trigger_missing_field_writes_store :
    rawMissingSM.soilMoisture = none ∧
    (trigger_prediction testArtifacts false okEnv clk storeRawMissing).2 =
      .success (.ok 1 okEnv.timestamp) rawMissingSM ∧
    (trigger_prediction testArtifacts false okEnv clk storeRawMissing).1.prediction_class
      = some (.num ((1 : Int) : ℚ)) ∧
    (trigger_prediction testArtifacts false okEnv clk storeRawMissing).1.last_prediction_time
      = some (.str okEnv.timestamp) := by
  refine ⟨rfl, rfl, rfl, rfl⟩

/-- C10: whenever feature construction and inference succeed, the first
publish write succeeds and the second raises, the run reports an error while
the store keeps the newly written `prediction_class` next to the old
`last_prediction_time` — the state changed on error. -/
theorem publish_not_atomic (A : Artifacts) (env : PredictEnv)
    (data : SensorData) (now : Clock) (store : SensorSnapshot) (fv : List ℚ)
    (hfv : feature_vector A data now = some fv)
    (hinf : env.inferRaises = false) (h1 : env.write1 = .ok)
    (h2 : env.write2 = .raise) :
    (predict_irrigation A env data now store).2 = .error "store write failed" ∧
    (predict_irrigation A env data now store).1.prediction_class =
      some (.num ((A.predict (A.scale fv) : Int) : ℚ)) ∧
    (predict_irrigation A env data now store).1.last_prediction_time =
      store.last_prediction_time ∧
    (predict_irrigation A env data now store).1 =
      set_prediction_class (A.predict (A.scale fv)) store := by
  refine ⟨?_, ?_, ?_, ?_⟩ <;>
    simp [predict_irrigation, hfv, hinf, h1, h2, set_prediction_class]

/-- Witness for C10: the concrete reading `dataA`, the test artifacts and a
second-write failure on the store `snapA`. -/
theorem publish_not_atomic_witness :
    (predict_irrigation testArtifacts write2FailEnv dataA clk snapA).2 =
      .error "store write failed" ∧
    (predict_irrigation testArtifacts write2FailEnv dataA clk snapA).1.prediction_class
      = some (.num ((testArtifacts.predict (testArtifacts.scale fvA) : Int) : ℚ)) ∧
    (predict_irrigation testArtifacts write2FailEnv dataA clk snapA).1.last_prediction_time
      = snapA.last_prediction_time ∧
    (predict_irrigation testArtifacts write2FailEnv dataA clk snapA).1 =
      set_prediction_class (testArtifacts.predict (testArtifacts.scale fvA)) snapA :=
  publish_not_atomic testArtifacts write2FailEnv dataA clk snapA fvA rfl rfl
    rfl rfl

/-- Helper: the float coercion fails whenever one of the three fetched
values is a stored JSON null. -/
theorem coerceSensorData_null (h t sm : Option FireValue)
    (hn : h = some .null ∨ t = some .null ∨ sm = some .null) :
    coerceSensorData h t sm = none := by
  rcases hn with hn | hn | hn
  · subst hn
    rfl
  · subst hn
    cases hh : coerceFloat (h.getD (.num 0)) <;>
      simp [coerceSensorData, hh, coerceFloat]
  · subst hn
    cases hh : coerceFloat (h.getD (.num 0)) <;>
      cases ht : coerceFloat (t.getD (.num 0)) <;>
      simp [coerceSensorData, hh, ht, coerceFloat]

/-- Helper: an invalid snapshot whose three required fields are all present
has one of them stored as JSON null. -/
theorem snapshot_invalid_present_null (c : SensorSnapshot)
    (hinv : snapshot_invalid c = true)
    (hrp : required_fields_present c = true) :
    c.humidity = some .null ∨ c.temperature = some .null ∨
      c.soilMoisture = some .null := by
  simp only [snapshot_invalid, missing_or_null, required_fields_present,
    Bool.or_eq_true, Bool.and_eq_true, Option.isNone_iff_eq_none,
    Option.isSome_iff_exists, beq_iff_eq] at hinv hrp
  obtain ⟨⟨h1, h2⟩, h3⟩ := hrp
  rcases hinv with ((hv | hv) | (hv | hv)) | (hv | hv)
  · exact absurd hv (by rcases h1 with ⟨x, hx⟩; simp [hx])
  · exact Or.inl hv
  · exact absurd hv (by rcases h2 with ⟨x, hx⟩; simp [hx])
  · exact Or.inr (Or.inl hv)
  · exact absurd hv (by rcases h3 with ⟨x, hx⟩; simp [hx])
  · exact Or.inr (Or.inr hv)

/-- Helper: a raw reading with a null field, restated as a disjunction. -/
theorem raw_has_null_cases (r : RawSnapshot) (hn : raw_has_null r = true) :
    r.humidity = some .null ∨ r.temperature = some .null ∨
      r.soilMoisture = some .null := by
  simp only [raw_has_null, Bool.or_eq_true, beq_iff_eq] at hn
  tauto

/-- Helper: an invalid raw reading whose three fields are all present has
one of them stored as JSON null. -/
theorem raw_invalid_present_null (r : RawSnapshot)
    (hinv : raw_invalid r = true)
    (hrp : (r.humidity.isSome && r.temperature.isSome &&
      r.soilMoisture.isSome) = true) :
    r.humidity = some .null ∨ r.temperature = some .null ∨
      r.soilMoisture = some .null := by
  simp only [raw_invalid, missing_or_null, Bool.or_eq_true, Bool.and_eq_true,
    Option.isNone_iff_eq_none, Option.isSome_iff_exists, beq_iff_eq]
    at hinv hrp
  obtain ⟨⟨h1, h2⟩, h3⟩ := hrp
  rcases hinv with ((hv | hv) | (hv | hv)) | (hv | hv)
  · exact absurd hv (by rcases h1 with ⟨x, hx⟩; simp [hx])
  · exact Or.inl hv
  · exact absurd hv (by rcases h2 with ⟨x, hx⟩; simp [hx])
  · exact Or.inr (Or.inl hv)
  · exact absurd hv (by rcases h3 with ⟨x, hx⟩; simp [hx])
  · exact Or.inr (Or.inr hv)

/-- Helper: the poll cycle never runs the pipeline, and never writes the
store, on a fetched reading with a missing or null required field. -/
theorem monitorCycle_invalid_rejects (A : Artifacts) (env : CycleEnv)
    (now : Clock) (store : SensorSnapshot) (s : MonitorState)
    (hinv : snapshot_invalid store = true) :
    (monitorCycle A env now store s).result = none ∧
    (monitorCycle A env now store s).store = store := by
  unfold monitorCycle
  by_cases hh : s.halted = true
  · simp [hh]
  · by_cases hf : env.fetchRaises = true
    · simp [hh, hf]
    · cases hms : monitorFetch store with
      | none => simp [hh, hf, hms]
      | some current =>
          have hc : current = store := by
            unfold monitorFetch at hms
            split at hms
            · cases hms
            · injection hms with h
              exact h.symm
          subst hc
          by_cases hcd : data_changed s.last_values current = true
          · by_cases hrp : required_fields_present current = true
            · have hnull := snapshot_invalid_present_null current hinv hrp
              have hco := coerceSensorData_null _ _ _ hnull
              simp [hh, hf, hms, hcd, hrp, hco]
            · simp [hh, hf, hms, hcd, hrp]
          · simp [hh, hf, hms, hcd]

/-- Helper: the push listener never runs the pipeline, and never writes the
store, on an event payload with a missing or null required field. -/
theorem listener_invalid_rejects (A : Artifacts) (penv : PredictEnv)
    (now : Clock) (event : FireEvent) (store : SensorSnapshot)
    (r : RawSnapshot) (hd : event.data = some r)
    (hinv : raw_invalid r = true) :
    sensor_data_listener A penv now event store = (store, none) := by
  unfold sensor_data_listener
  rw [hd]
  by_cases hg : (rawTruthy (some r) &&
      (event.event_type == .put || event.event_type == .patch)) = true
  · by_cases hrp : (r.humidity.isSome && r.temperature.isSome &&
        r.soilMoisture.isSome) = true
    · have hnull := raw_invalid_present_null r hinv hrp
      have hco := coerceSensorData_null _ _ _ hnull
      simp [hg, hrp, hco]
    · simp [hg, hrp]
  · simp [hg]

/-- Helper: the trigger endpoint rejects a raw reading with a null required
field — the run reports an error and the store is untouched. -/
theorem trigger_null_rejects (A : Artifacts) (penv : PredictEnv)
    (now : Clock) (store : SensorSnapshot) (r : RawSnapshot)
    (hr : store.raw = some r) (hn : raw_has_null r = true) :
    trigger_prediction A false penv now store =
      (store, .error "coercion failed") := by
  have hnull := raw_has_null_cases r hn
  have hne : r ≠ emptyRaw := by
    intro he
    subst he
    simp [emptyRaw] at hnull
  have hco := coerceSensorData_null _ _ _ hnull
  simp [trigger_prediction, hr, rawTruthy, hne, hco]

/-- C3 (amended): the poll loop and the push listener reject a reading with
a missing or null required sensor field before feature construction — no
pipeline run, no store write; the manual trigger endpoint likewise rejects
a null field with no store write; a field missing at the trigger endpoint,
however, defaults to 0.0 and the pipeline runs (see the counterexample). -/
theorem missing_or_null_field_rejected :
    (∀ (A : Artifacts) (env : CycleEnv) (now : Clock)
        (store : SensorSnapshot) (s : MonitorState),
      snapshot_invalid store = true →
      (monitorCycle A env now store s).result = none ∧
      (monitorCycle A env now store s).store = store) ∧
    (∀ (A : Artifacts) (penv : PredictEnv) (now : Clock) (event : FireEvent)
        (store : SensorSnapshot) (r : RawSnapshot),
      event.data = some r → raw_invalid r = true →
      sensor_data_listener A penv now event store = (store, none)) ∧
    (∀ (A : Artifacts) (penv : PredictEnv) (now : Clock)
        (store : SensorSnapshot) (r : RawSnapshot),
      store.raw = some r → raw_has_null r = true →
      trigger_prediction A false penv now store =
        (store, .error "coercion failed")) :=
  ⟨monitorCycle_invalid_rejects, listener_invalid_rejects,
    trigger_null_rejects⟩

/-- Helper: from a running state, one poll cycle halts the loop exactly
when the fetch raises with the counter at `max_errors - 1` or above. -/
theorem monitorCycle_halted_eq (A : Artifacts) (env : CycleEnv) (now : Clock)
    (store : SensorSnapshot) (s : MonitorState) (hs : s.halted = false) :
    (monitorCycle A env now store s).state.halted =
      (env.fetchRaises && decide (max_errors ≤ s.consecutive_errors + 1)) := by
  by_cases hf : env.fetchRaises = true
  · simp [monitorCycle, hs, hf]
  · simp only [Bool.not_eq_true] at hf
    cases hms : monitorFetch store with
    | none => simp [monitorCycle, hs, hf, hms]
    | some current =>
        by_cases hcd : data_changed s.last_values current = true
        · by_cases hrp : required_fields_present current = true
          · cases hco : coerceSensorData current.humidity current.temperature
                current.soilMoisture with
            | none => simp [monitorCycle, hs, hf, hms, hcd, hrp, hco]
            | some d => simp [monitorCycle, hs, hf, hms, hcd, hrp, hco]
          · simp [monitorCycle, hs, hf, hms, hcd, hrp]
        · simp [monitorCycle, hs, hf, hms, hcd]

/-- Helper: a poll cycle either never reaches the pipeline call, or it
resets the consecutive-error counter to zero. -/
theorem monitorCycle_result_resets (A : Artifacts) (env : CycleEnv)
    (now : Clock) (store : SensorSnapshot) (s : MonitorState) :
    (monitorCycle A env now store s).result = none ∨
    (monitorCycle A env now store s).state.consecutive_errors = 0 := by
  by_cases hh : s.halted = true
  · left
    simp [monitorCycle, hh]
  · by_cases hf : env.fetchRaises = true
    · left
      simp [monitorCycle, hh, hf]
    · cases hms : monitorFetch store with
      | none =>
          left
          simp [monitorCycle, hh, hf, hms]
      | some current =>
          by_cases hcd : data_changed s.last_values current = true
          · by_cases hrp : required_fields_present current = true
            · cases hco : coerceSensorData current.humidity
                  current.temperature current.soilMoisture with
              | none =>
                  left
                  simp [monitorCycle, hh, hf, hms, hcd, hrp, hco]
              | some d =>
                  right
                  simp [monitorCycle, hh, hf, hms, hcd, hrp, hco]
            · left
              simp [monitorCycle, hh, hf, hms, hcd, hrp]
          · left
            simp [monitorCycle, hh, hf, hms, hcd]

/-- C5: a running poll loop halts on a cycle exactly when a counted error
(a raising fetch) arrives with the consecutive-error counter reaching
`max_errors` = 5; a halted loop stays halted and does nothing further; any
cycle whose pipeline run succeeded resets the counter to zero; and
concretely, 4 counted errors, then a successful run, then 4 more counted
errors leave the loop running with counter 4, while 5 consecutive counted
errors halt it. -/
theorem monitor_halts_exactly_at_five_consecutive_errors :
    (∀ (A : Artifacts) (env : CycleEnv) (now : Clock)
        (store : SensorSnapshot) (s : MonitorState), s.halted = false →
      ((monitorCycle A env now store s).state.halted = true ↔
        (env.fetchRaises = true ∧
          max_errors ≤ s.consecutive_errors + 1))) ∧
    (∀ (A : Artifacts) (env : CycleEnv) (now : Clock)
        (store : SensorSnapshot) (s : MonitorState), s.halted = true →
      monitorCycle A env now store s = ⟨store, s, none⟩) ∧
    (∀ (A : Artifacts) (env : CycleEnv) (now : Clock)
        (store : SensorSnapshot) (s : MonitorState) (c : Int) (t : String),
      (monitorCycle A env now store s).result = some (.ok c t) →
      (monitorCycle A env now store s).state.consecutive_errors = 0) ∧
    (runMonitor testArtifacts trace414 snapA initState).2.halted = false ∧
    (runMonitor testArtifacts trace414 snapA initState).2.consecutive_errors
      = 4 ∧
    (runMonitor testArtifacts trace5 snapA initState).2.halted = true := by
  refine ⟨?_, ?_, ?_, rfl, rfl, rfl⟩
  · intro A env now store s hs
    rw [monitorCycle_halted_eq A env now store s hs]
    simp [Bool.and_eq_true]
  · intro A env now store s hs
    simp [monitorCycle, hs]
  · intro A env now store s c t h
    rcases monitorCycle_result_resets A env now store s with h0 | h0
    · rw [h0] at h
      cases h
    · exact h0
